import Mathlib

/-!
Verification of the homekit-ratgdo-exporter core (src/main.go).

The Go program polls a JSON status endpoint and republishes its fields as
Prometheus metrics.  We shallowly embed the two functions that carry the
whole behaviour, `fetchData` and `metricsHandler`, together with the metric
registry they mutate.

Modelling choices:
* Gauge values: every value the program ever writes into a gauge is
  `float64` of an integer field, `boolToFloat` (exactly 0 or 1), or the
  literals 0/1.  All of these are exact in binary floating point for the
  magnitudes at play, so gauge values are modelled as `Int`.
* A `GaugeVec` is a partial map from its label tuple to a value: a series
  exists only once `WithLabelValues(...).Set(...)` touched that tuple,
  mirroring the lazy child creation of the Prometheus client.
* The pipeline `http.Get` / `ioutil.ReadAll` / `json.Unmarshal` is
  abstracted into an `Upstream` outcome: transport failure (no status
  code), a response whose body could not be read, a response whose body
  did not unmarshal (for example an empty body, which `json.Unmarshal`
  rejects), or a decoded `Status`.  The Go code never inspects the body
  other than through this pipeline, so this is a lossless interface.
* The three distinct non-nil Go error values are modelled by `FetchErr`.
-/

namespace Ratgdo

/-- The Go struct `Status` (src/main.go lines 15-45): the JSON schema of one
upstream snapshot.  Go `int`/`int64` fields are modelled as `Int`. -/
structure Status where
  upTime : Int
  deviceName : String
  paired : Bool
  firmwareVersion : String
  accessoryID : String
  localIP : String
  subnetMask : String
  gatewayIP : String
  macAddress : String
  wifiSSID : String
  GDOSecurityType : String
  garageDoorState : String
  garageLockState : String
  garageLightOn : Bool
  garageMotion : Bool
  garageObstructed : Bool
  passwordRequired : Bool
  rebootSeconds : Int
  freeHeap : Int
  minHeap : Int
  minStack : Int
  crashCount : Int
  wifiPhyMode : Int
  wifiPower : Int
  TTCseconds : Int
  motionTriggers : Int
  LEDidle : Int
  lastDoorUpdateAt : Int
  checkFlashCRC : Bool
deriving DecidableEq, Repr

/-- Label tuple (location, accessoryID, deviceName, localIP, macAddress) used
by the eleven per-device gauges (src/main.go lines 70-123). -/
structure IdLabels where
  location : String
  accessoryID : String
  deviceName : String
  localIP : String
  macAddress : String
deriving DecidableEq, Repr

/-- Label tuple of the `homekit_ratgdo_info` gauge (src/main.go line 128):
location, firmwareVersion, subnetMask, gatewayIP, wifiSSID, garageLockState,
GDOSecurityType — and nothing else. -/
structure InfoLabels where
  location : String
  firmwareVersion : String
  subnetMask : String
  gatewayIP : String
  wifiSSID : String
  garageLockState : String
  GDOSecurityType : String
deriving DecidableEq, Repr

/-- A Prometheus `GaugeVec`: a partial map from a label tuple to the gauge
value.  `none` means no series with that label combination exists yet. -/
def GaugeVec (α : Type) : Type := α → Option Int

/-- `WithLabelValues(l...).Set(v)` on a gauge vector: creates/overwrites the
series for label tuple `l` with value `v`, leaving all other series alone. -/
def GaugeVec.set {α : Type} [DecidableEq α] (g : GaugeVec α) (l : α) (v : Int) :
    GaugeVec α :=
  fun l2 => if l2 = l then some v else g l2

/-- The gauge part of the global metric registry (src/main.go lines 48-59):
one field per registered `GaugeVec`. -/
structure GaugeState where
  upTime : GaugeVec IdLabels
  paired : GaugeVec IdLabels
  garageLightOn : GaugeVec IdLabels
  garageMotion : GaugeVec IdLabels
  garageObstructed : GaugeVec IdLabels
  passwordRequired : GaugeVec IdLabels
  freeHeap : GaugeVec IdLabels
  minHeap : GaugeVec IdLabels
  minStack : GaugeVec IdLabels
  crashCount : GaugeVec IdLabels
  garageDoorState : GaugeVec IdLabels
  deviceInfo : GaugeVec InfoLabels

/-- Registry state right after `init()`: no gauge series exists yet (the Go
client creates children lazily on first `WithLabelValues`). -/
def initGauges : GaugeState where
  upTime := fun _ => none
  paired := fun _ => none
  garageLightOn := fun _ => none
  garageMotion := fun _ => none
  garageObstructed := fun _ => none
  passwordRequired := fun _ => none
  freeHeap := fun _ => none
  minHeap := fun _ => none
  minStack := fun _ => none
  crashCount := fun _ => none
  garageDoorState := fun _ => none
  deviceInfo := fun _ => none

/-- The `homekit_ratgdo_request_count` CounterVec, whose four children
"2xx".."5xx" are pre-allocated in `init()` (src/main.go lines 130-136 and
159-162), so it is exactly four `Nat` counts. -/
structure Counters where
  c2xx : Nat
  c3xx : Nat
  c4xx : Nat
  c5xx : Nat
deriving DecidableEq, Repr

/-- Counter state right after `init()`: the four pre-allocated buckets at 0. -/
def initCounters : Counters where
  c2xx := 0
  c3xx := 0
  c4xx := 0
  c5xx := 0

/-- `boolToFloat` (src/main.go lines 219-224); the `float64` results 1 and 0
are exact, modelled as `Int`. -/
def boolToFloat (b : Bool) : Int :=
  if b then 1 else 0

/-- The identity label values `fetchData` passes to `WithLabelValues`:
the configured location plus four fields of the fresh snapshot. -/
def idLabels (location : String) (st : Status) : IdLabels where
  location := location
  accessoryID := st.accessoryID
  deviceName := st.deviceName
  localIP := st.localIP
  macAddress := st.macAddress

/-- The label values `fetchData` passes to `deviceInfo.With`
(src/main.go lines 206-214). -/
def infoLabelsOf (location : String) (st : Status) : InfoLabels where
  location := location
  firmwareVersion := st.firmwareVersion
  subnetMask := st.subnetMask
  gatewayIP := st.gatewayIP
  wifiSSID := st.wifiSSID
  garageLockState := st.garageLockState
  GDOSecurityType := st.GDOSecurityType

/-- The gauge-update statements of `fetchData` (src/main.go lines 189-214),
in program order, one list entry per statement.  The door-state conditional
(lines 200-204) performs at most one `Set` and is one entry. -/
def scrapeWrites (location : String) (st : Status) :
    List (GaugeState → GaugeState) :=
  [ fun g => { g with upTime := g.upTime.set (idLabels location st) st.upTime },
    fun g => { g with paired := g.paired.set (idLabels location st) (boolToFloat st.paired) },
    fun g => { g with garageLightOn := g.garageLightOn.set (idLabels location st) (boolToFloat st.garageLightOn) },
    fun g => { g with garageMotion := g.garageMotion.set (idLabels location st) (boolToFloat st.garageMotion) },
    fun g => { g with garageObstructed := g.garageObstructed.set (idLabels location st) (boolToFloat st.garageObstructed) },
    fun g => { g with passwordRequired := g.passwordRequired.set (idLabels location st) (boolToFloat st.passwordRequired) },
    fun g => { g with freeHeap := g.freeHeap.set (idLabels location st) st.freeHeap },
    fun g => { g with minHeap := g.minHeap.set (idLabels location st) st.minHeap },
    fun g => { g with minStack := g.minStack.set (idLabels location st) st.minStack },
    fun g => { g with crashCount := g.crashCount.set (idLabels location st) st.crashCount },
    fun g =>
      if st.garageDoorState = "Closed" then
        { g with garageDoorState := g.garageDoorState.set (idLabels location st) 0 }
      else if st.garageDoorState = "Open" then
        { g with garageDoorState := g.garageDoorState.set (idLabels location st) 1 }
      else
        g,
    fun g => { g with deviceInfo := g.deviceInfo.set (infoLabelsOf location st) 1 } ]

/-- Run a list of registry updates in order. -/
def runW {G : Type} (fs : List (G → G)) (g : G) : G :=
  fs.foldl (fun g f => f g) g

/-- The registry effect of a successful scrape: all updates of
src/main.go lines 189-214 applied in order. -/
def applyStatus (location : String) (st : Status) (g : GaugeState) : GaugeState :=
  runW (scrapeWrites location st) g

/-- Outcome of the `http.Get` / `ReadAll` / `json.Unmarshal` pipeline inside
`fetchData`: transport failure (no response, hence no status code), a
response whose body could not be read, a response whose body did not
unmarshal into `Status` (e.g. an empty or non-JSON body), or a response
carrying `statusCode` whose body decoded to `status`. -/
inductive Upstream where
  | transportError : Upstream
  | readError (statusCode : Int) : Upstream
  | decodeError (statusCode : Int) : Upstream
  | ok (statusCode : Int) (status : Status) : Upstream
deriving DecidableEq, Repr

/-- The three distinct non-nil Go error values `fetchData` can return. -/
inductive FetchErr where
  | getErr : FetchErr
  | readErr : FetchErr
  | unmarshalErr : FetchErr
deriving DecidableEq, Repr

/-- `fetchData` (src/main.go lines 165-217): on any failure it returns
`(0, err)` with the registry untouched (each `return 0, err` happens before
any gauge write); on full success it applies all gauge updates and returns
`(resp.StatusCode, nil)`.  The result is (new registry, returned status
code, returned error). -/
def fetchData (location : String) (u : Upstream) (g : GaugeState) :
    GaugeState × Int × Option FetchErr :=
  match u with
  | Upstream.transportError => (g, 0, some FetchErr.getErr)
  | Upstream.readError _ => (g, 0, some FetchErr.readErr)
  | Upstream.decodeError _ => (g, 0, some FetchErr.unmarshalErr)
  | Upstream.ok statusCode st => (applyStatus location st g, statusCode, none)

/-- `metricsHandler` (src/main.go lines 226-244): runs `fetchData`, writes an
HTTP 500 error iff it returned a non-nil error (and still continues), then
increments at most one counter bucket by the status-class switch on the
returned status code.  The Bool records whether `http.Error(..., 500)` was
written to the response. -/
def metricsHandler (location : String) (u : Upstream) (g : GaugeState)
    (k : Counters) : (GaugeState × Counters) × Bool :=
  let r := fetchData location u g
  let statusCode := r.2.1
  let k2 :=
    if 200 ≤ statusCode ∧ statusCode < 300 then { k with c2xx := k.c2xx + 1 }
    else if 300 ≤ statusCode ∧ statusCode < 400 then { k with c3xx := k.c3xx + 1 }
    else if 400 ≤ statusCode ∧ statusCode < 500 then { k with c4xx := k.c4xx + 1 }
    else if 500 ≤ statusCode then { k with c5xx := k.c5xx + 1 }
    else k
  ((r.1, k2), (r.2.2).isSome)

/-- A sequence of scrapes: one `metricsHandler` call per upstream outcome. -/
def runScrapes (location : String) (us : List Upstream) (p : GaugeState × Counters) :
    GaugeState × Counters :=
  us.foldl (fun p u => (metricsHandler location u p.1 p.2).1) p

/-- Whether the upstream GET produced an HTTP response, i.e. a genuine status
code existed (even if `fetchData` then discarded it). -/
def obtainedStatus : Upstream → Bool
  | Upstream.transportError => false
  | Upstream.readError _ => true
  | Upstream.decodeError _ => true
  | Upstream.ok _ _ => true

/-- Whether a scrape actually increments some counter bucket: the body
decoded and the status code falls in one of the four classes. -/
def countedScrape : Upstream → Bool
  | Upstream.ok statusCode _ => decide (200 ≤ statusCode)
  | _ => false

/-- Sum of the four counter buckets. -/
def totalRequestCount (k : Counters) : Nat :=
  k.c2xx + k.c3xx + k.c4xx + k.c5xx

/-- A concrete decoded snapshot, used to evaluate the model on real data
(values follow the end-to-end example of the specification). -/
def sampleStatus : Status where
  upTime := 120
  deviceName := "Door1"
  paired := true
  firmwareVersion := "1.0.0"
  accessoryID := "AA"
  localIP := "10.0.0.5"
  subnetMask := "255.255.255.0"
  gatewayIP := "10.0.0.1"
  macAddress := "AA:BB"
  wifiSSID := "mywifi"
  GDOSecurityType := "2"
  garageDoorState := "Closed"
  garageLockState := "Unlocked"
  garageLightOn := true
  garageMotion := false
  garageObstructed := false
  passwordRequired := false
  rebootSeconds := 30
  freeHeap := 45000
  minHeap := 40000
  minStack := 3000
  crashCount := 2
  wifiPhyMode := 3
  wifiPower := 20
  TTCseconds := 0
  motionTriggers := 1
  LEDidle := 0
  lastDoorUpdateAt := 99
  checkFlashCRC := true

/-- `sampleStatus` with the door reported open. -/
def sampleStatusOpen : Status :=
  { sampleStatus with garageDoorState := "Open" }

/-- `sampleStatus` with a door state that is neither "Closed" nor "Open". -/
def sampleStatusOdd : Status :=
  { sampleStatus with garageDoorState := "Opening" }

/-- `sampleStatus` with different device-identity fields but identical
info-gauge fields. -/
def sampleStatusAlt : Status :=
  { sampleStatus with
      accessoryID := "ZZ"
      deviceName := "Door2"
      localIP := "10.0.0.9"
      macAddress := "CC:DD" }

/-- All ten numeric/boolean gauges carry exactly the snapshot's values under
the identity label tuple drawn from that snapshot. -/
def gaugesSetFrom (location : String) (st : Status) (m : GaugeState) : Prop :=
  m.upTime (idLabels location st) = some st.upTime
  ∧ m.paired (idLabels location st) = some (boolToFloat st.paired)
  ∧ m.garageLightOn (idLabels location st) = some (boolToFloat st.garageLightOn)
  ∧ m.garageMotion (idLabels location st) = some (boolToFloat st.garageMotion)
  ∧ m.garageObstructed (idLabels location st) = some (boolToFloat st.garageObstructed)
  ∧ m.passwordRequired (idLabels location st) = some (boolToFloat st.passwordRequired)
  ∧ m.freeHeap (idLabels location st) = some st.freeHeap
  ∧ m.minHeap (idLabels location st) = some st.minHeap
  ∧ m.minStack (idLabels location st) = some st.minStack
  ∧ m.crashCount (idLabels location st) = some st.crashCount

/-- State of the two-goroutine lock model: who holds `mutex` (src/main.go
line 66), each goroutine's program counter inside `fetchData`, and the
shared gauge registry. -/
structure CState (G : Type) where
  lock : Option Bool
  pc : Bool → Nat
  mem : G

/-- Initial state: the mutex is free, both scrape goroutines are about to
call `mutex.Lock()`, the registry holds `g`. -/
def cinit {G : Type} (g : G) : CState G where
  lock := none
  pc := fun _ => 0
  mem := g

/-- Interleaving semantics of two concurrent `fetchData` calls over the
shared registry, where `w t` lists the gauge-update statements of goroutine
t's scrape.  `acquire` models `mutex.Lock()` returning (possible only while
nobody holds the mutex, src/main.go line 166), `write` models executing one
gauge-update statement (the fetch and decode before them touch no shared
state), and `release` models the deferred `mutex.Unlock()` (line 167).
Program counter values of goroutine t: 0 = before Lock, i+1 = about to run
statement i, length+1 = about to Unlock, length+2 = returned. -/
inductive CStep {G : Type} (w : Bool → List (G → G)) :
    CState G → CState G → Prop where
  | acquire (t : Bool) (s : CState G) (hl : s.lock = none) (hp : s.pc t = 0) :
      CStep w s
        { lock := some t, pc := Function.update s.pc t 1, mem := s.mem }
  | write (t : Bool) (s : CState G) (i : Nat) (hi : i < (w t).length)
      (hp : s.pc t = i + 1) :
      CStep w s
        { lock := s.lock, pc := Function.update s.pc t (i + 2),
          mem := (w t).get ⟨i, hi⟩ s.mem }
  | release (t : Bool) (s : CState G) (hp : s.pc t = (w t).length + 1) :
      CStep w s
        { lock := none, pc := Function.update s.pc t ((w t).length + 2),
          mem := s.mem }

/-- Reachability of a state from the initial registry `g`. -/
def creach {G : Type} (w : Bool → List (G → G)) (g : G) (s : CState G) :
    Prop :=
  Relation.ReflTransGen (CStep w) (cinit g) s

/-- Both scrape goroutines have returned. -/
def cdone {G : Type} (w : Bool → List (G → G)) (s : CState G) : Prop :=
  s.pc false = (w false).length + 2 ∧ s.pc true = (w true).length + 2

/-- Inductive invariant of the lock model: either nobody has started, or
one goroutine is inside its critical section (holding the mutex, its prefix
of writes applied) while the other has not started, or one has finished and
the other has not started, or one has finished and the other is inside its
critical section, or both have finished.  In every case the registry is a
prefix-of-serial-execution state, never an interleaving. -/
def CInv {G : Type} (w : Bool → List (G → G)) (g0 : G) (s : CState G) :
    Prop :=
  (s.pc false = 0 ∧ s.pc true = 0 ∧ s.lock = none ∧ s.mem = g0)
  ∨ (∃ t : Bool, s.pc (!t) = 0 ∧ 1 ≤ s.pc t ∧ s.pc t ≤ (w t).length + 1
      ∧ s.lock = some t ∧ s.mem = runW ((w t).take (s.pc t - 1)) g0)
  ∨ (∃ t : Bool, s.pc (!t) = 0 ∧ s.pc t = (w t).length + 2 ∧ s.lock = none
      ∧ s.mem = runW (w t) g0)
  ∨ (∃ t : Bool, s.pc t = (w t).length + 2 ∧ 1 ≤ s.pc (!t)
      ∧ s.pc (!t) ≤ (w (!t)).length + 1 ∧ s.lock = some (!t)
      ∧ s.mem = runW ((w (!t)).take (s.pc (!t) - 1)) (runW (w t) g0))
  ∨ (∃ t : Bool, s.pc t = (w t).length + 2 ∧ s.pc (!t) = (w (!t)).length + 2
      ∧ s.lock = none ∧ s.mem = runW (w (!t)) (runW (w t) g0))

/-- The write scripts of the two concurrent scrapes of claim C8: goroutine
`false` applies snapshot st0, goroutine `true` applies snapshot st1. -/
def scrapeSystem (location : String) (st0 st1 : Status) :
    Bool → List (GaugeState → GaugeState) :=
  fun t => if t then scrapeWrites location st1 else scrapeWrites location st0

/-- The terminal state of the serial execution in which goroutine `false`
runs its whole scrape first and goroutine `true` second. -/
def serialFinal (location : String) (st0 st1 : Status) (g0 : GaugeState) :
    CState GaugeState where
  lock := none
  pc := fun t => (scrapeSystem location st0 st1 t).length + 2
  mem := applyStatus location st1 (applyStatus location st0 g0)

/-- Reading a gauge series right after setting it. -/
lemma GaugeVec.set_same {α : Type} [DecidableEq α] (g : GaugeVec α) (l : α)
    (v : Int) : GaugeVec.set g l v l = some v := by
  simp [GaugeVec.set]

/-- `applyStatus` written out as one record: each gauge field holds exactly
what the sequence of writes in src/main.go lines 189-214 leaves there. -/
lemma applyStatus_eq (location : String) (st : Status) (g : GaugeState) :
    applyStatus location st g =
      { upTime := GaugeVec.set g.upTime (idLabels location st) st.upTime
        paired := GaugeVec.set g.paired (idLabels location st) (boolToFloat st.paired)
        garageLightOn := GaugeVec.set g.garageLightOn (idLabels location st) (boolToFloat st.garageLightOn)
        garageMotion := GaugeVec.set g.garageMotion (idLabels location st) (boolToFloat st.garageMotion)
        garageObstructed := GaugeVec.set g.garageObstructed (idLabels location st) (boolToFloat st.garageObstructed)
        passwordRequired := GaugeVec.set g.passwordRequired (idLabels location st) (boolToFloat st.passwordRequired)
        freeHeap := GaugeVec.set g.freeHeap (idLabels location st) st.freeHeap
        minHeap := GaugeVec.set g.minHeap (idLabels location st) st.minHeap
        minStack := GaugeVec.set g.minStack (idLabels location st) st.minStack
        crashCount := GaugeVec.set g.crashCount (idLabels location st) st.crashCount
        garageDoorState :=
          if st.garageDoorState = "Closed" then
            GaugeVec.set g.garageDoorState (idLabels location st) 0
          else if st.garageDoorState = "Open" then
            GaugeVec.set g.garageDoorState (idLabels location st) 1
          else
            g.garageDoorState
        deviceInfo := GaugeVec.set g.deviceInfo (infoLabelsOf location st) 1 } := by
  unfold applyStatus runW scrapeWrites
  by_cases h1 : st.garageDoorState = "Closed"
  · simp [h1]
  · by_cases h2 : st.garageDoorState = "Open" <;> simp [h1, h2]

/-- The door-state gauge after a successful scrape: set to 0 on "Closed",
1 on "Open", untouched otherwise. -/
lemma applyStatus_garageDoorState (location : String) (st : Status)
    (g : GaugeState) :
    (applyStatus location st g).garageDoorState =
      if st.garageDoorState = "Closed" then
        GaugeVec.set g.garageDoorState (idLabels location st) 0
      else if st.garageDoorState = "Open" then
        GaugeVec.set g.garageDoorState (idLabels location st) 1
      else
        g.garageDoorState := by
  rw [applyStatus_eq]

/-- The info gauge after a successful scrape. -/
lemma applyStatus_deviceInfo (location : String) (st : Status)
    (g : GaugeState) :
    (applyStatus location st g).deviceInfo =
      GaugeVec.set g.deviceInfo (infoLabelsOf location st) 1 := by
  rw [applyStatus_eq]

/-- A successful scrape writes every numeric/boolean gauge from the
snapshot. -/
lemma applyStatus_gauges (location : String) (st : Status) (g : GaugeState) :
    gaugesSetFrom location st (applyStatus location st g) := by
  rw [gaugesSetFrom, applyStatus_eq]
  refine ⟨?_, ?_, ?_, ?_, ?_, ?_, ?_, ?_, ?_, ?_⟩ <;>
    simp [GaugeVec.set]

/-- Unfolding one scrape of a scrape sequence. -/
lemma runScrapes_cons (location : String) (u : Upstream) (us : List Upstream)
    (p : GaugeState × Counters) :
    runScrapes location (u :: us) p
      = runScrapes location us (metricsHandler location u p.1 p.2).1 := rfl

/-- One `metricsHandler` call never decreases a bucket, and it adds exactly
one increment in total iff the scrape decoded with a status code in one of
the four classes. -/
lemma metricsHandler_counters (location : String) (u : Upstream)
    (g : GaugeState) (k : Counters) :
    k.c2xx ≤ ((metricsHandler location u g k).1.2).c2xx
    ∧ k.c3xx ≤ ((metricsHandler location u g k).1.2).c3xx
    ∧ k.c4xx ≤ ((metricsHandler location u g k).1.2).c4xx
    ∧ k.c5xx ≤ ((metricsHandler location u g k).1.2).c5xx
    ∧ totalRequestCount ((metricsHandler location u g k).1.2)
        = totalRequestCount k + (if countedScrape u then 1 else 0) := by
  rcases u with _ | c | c | ⟨c, st⟩ <;>
    simp [metricsHandler, fetchData, countedScrape, totalRequestCount] <;>
    split_ifs <;> simp_all <;> omega

/-- Claim C1 (counterexample): the claim says a scrape whose body failed to
decode surfaces no error to the HTTP caller.  In the code, `fetchData`
returns a non-nil error on the unmarshal failure (src/main.go line 186), so
`metricsHandler` writes `http.Error(..., 500)`: the Bool component is
`true`. -/
theorem C1_counterexample :
    (metricsHandler "home" (Upstream.decodeError 200) initGauges
        initCounters).2 = true := rfl

/-- Claim C1 (amended): a scrape whose body failed to decode surfaces an
error to the HTTP caller exactly as a transport failure does (a 500 is
written), the gauges keep their prior values, and no status-class bucket is
incremented, because the obtained status code is discarded. -/
theorem C1_theorem (location : String) (c : Int) (g : GaugeState)
    (k : Counters) :
    metricsHandler location (Upstream.decodeError c) g k = ((g, k), true) := by
  simp [metricsHandler, fetchData]

/-- Claim C2 (counterexample): the claim says a 4xx response with an
undecodable (e.g. empty) body increments the 4xx bucket by 1.  In the code,
`fetchData` returns status code 0 on the unmarshal failure, so the
status-class switch matches no case and every bucket is unchanged. -/
theorem C2_counterexample :
    obtainedStatus (Upstream.decodeError 404) = true
    ∧ (metricsHandler "home" (Upstream.decodeError 404) initGauges
        initCounters).1.2 = initCounters := by
  refine ⟨rfl, ?_⟩
  simp [metricsHandler, fetchData]

/-- Claim C2 (amended): exactly one bucket is incremented, by the class
boundaries, on exactly those scrapes where the body also decoded and the
status code is at least 200; a response whose body fails to read or decode
increments no bucket at all. -/
theorem C2_theorem (location : String) (c : Int) (st : Status)
    (g : GaugeState) (k : Counters) :
    ((metricsHandler location (Upstream.ok c st) g k).1.2).c2xx
        = k.c2xx + (if 200 ≤ c ∧ c < 300 then 1 else 0)
    ∧ ((metricsHandler location (Upstream.ok c st) g k).1.2).c3xx
        = k.c3xx + (if 300 ≤ c ∧ c < 400 then 1 else 0)
    ∧ ((metricsHandler location (Upstream.ok c st) g k).1.2).c4xx
        = k.c4xx + (if 400 ≤ c ∧ c < 500 then 1 else 0)
    ∧ ((metricsHandler location (Upstream.ok c st) g k).1.2).c5xx
        = k.c5xx + (if 500 ≤ c then 1 else 0)
    ∧ totalRequestCount ((metricsHandler location (Upstream.ok c st) g k).1.2)
        = totalRequestCount k + (if 200 ≤ c then 1 else 0)
    ∧ (metricsHandler location (Upstream.decodeError c) g k).1.2 = k
    ∧ (metricsHandler location (Upstream.readError c) g k).1.2 = k := by
  refine ⟨?_, ?_, ?_, ?_, ?_, ?_, ?_⟩ <;>
    simp [metricsHandler, fetchData, totalRequestCount] <;>
    split_ifs <;> simp_all <;> omega

/-- Claim C3 (counterexample): the claim says the sum of bucket increments
over N scrapes that obtained a status code equals N.  One scrape that
obtained status 404 with an undecodable body leaves the whole counter state
(and everything else) unchanged: the sum of increments is 0, not 1. -/
theorem C3_counterexample :
    obtainedStatus (Upstream.decodeError 404) = true
    ∧ runScrapes "home" [Upstream.decodeError 404] (initGauges, initCounters)
        = (initGauges, initCounters) := by
  refine ⟨rfl, ?_⟩
  simp [runScrapes, metricsHandler, fetchData]

/-- Claim C3 (amended): across any sequence of scrapes every bucket is
monotonically non-decreasing, and the sum of all bucket increments equals
the number of scrapes whose body decoded with a status code of at least 200
(not the number of scrapes that merely obtained a status code). -/
theorem C3_theorem (location : String) (us : List Upstream) (g : GaugeState)
    (k : Counters) :
    k.c2xx ≤ (runScrapes location us (g, k)).2.c2xx
    ∧ k.c3xx ≤ (runScrapes location us (g, k)).2.c3xx
    ∧ k.c4xx ≤ (runScrapes location us (g, k)).2.c4xx
    ∧ k.c5xx ≤ (runScrapes location us (g, k)).2.c5xx
    ∧ totalRequestCount (runScrapes location us (g, k)).2
        = totalRequestCount k + us.countP countedScrape := by
  induction us generalizing g k with
  | nil => simp [runScrapes]
  | cons u us ih =>
    obtain ⟨h2, h3, h4, h5, htot⟩ := metricsHandler_counters location u g k
    obtain ⟨r2, r3, r4, r5, rtot⟩ :=
      ih (metricsHandler location u g k).1.1 (metricsHandler location u g k).1.2
    rw [Prod.mk.eta] at r2 r3 r4 r5 rtot
    rw [runScrapes_cons]
    refine ⟨le_trans h2 r2, le_trans h3 r3, le_trans h4 r4, le_trans h5 r5, ?_⟩
    rw [rtot, htot, List.countP_cons]
    by_cases hc : countedScrape u <;> simp [hc] <;> omega

/-- Claim C4: on a successful decode the door gauge is set to 0 on "Closed"
and 1 on "Open"; any other door-state string leaves the door gauge map
untouched while all other gauges are still updated from the snapshot. -/
theorem C4_theorem (location : String) (st : Status) (g : GaugeState) :
    (st.garageDoorState = "Closed" →
      (applyStatus location st g).garageDoorState (idLabels location st)
        = some 0)
    ∧ (st.garageDoorState = "Open" →
      (applyStatus location st g).garageDoorState (idLabels location st)
        = some 1)
    ∧ (st.garageDoorState ≠ "Closed" → st.garageDoorState ≠ "Open" →
      (applyStatus location st g).garageDoorState = g.garageDoorState)
    ∧ gaugesSetFrom location st (applyStatus location st g) := by
  refine ⟨?_, ?_, ?_, applyStatus_gauges location st g⟩
  · intro h
    rw [applyStatus_garageDoorState]
    simp [h, GaugeVec.set]
  · intro h
    rw [applyStatus_garageDoorState]
    simp [h, GaugeVec.set]
  · intro h1 h2
    rw [applyStatus_garageDoorState, if_neg h1, if_neg h2]

/-- Claim C4 (witness): evaluated on concrete snapshots with door state
"Closed", "Open" and "Opening". -/
theorem C4_witness :
    (applyStatus "home" sampleStatus initGauges).garageDoorState
        (idLabels "home" sampleStatus) = some 0
    ∧ (applyStatus "home" sampleStatusOpen initGauges).garageDoorState
        (idLabels "home" sampleStatusOpen) = some 1
    ∧ (applyStatus "home" sampleStatusOdd initGauges).garageDoorState
        = initGauges.garageDoorState
    ∧ gaugesSetFrom "home" sampleStatusOdd
        (applyStatus "home" sampleStatusOdd initGauges) :=
  ⟨( C4_theorem "home" sampleStatus initGauges).1 rfl,
   ( C4_theorem "home" sampleStatusOpen initGauges).2.1 rfl,
   ( C4_theorem "home" sampleStatusOdd initGauges).2.2.1 (by decide) (by decide),
   ( C4_theorem "home" sampleStatusOdd initGauges).2.2.2⟩

/-- Claim C5: a transport-failure scrape returns the registry (gauges and
counters) exactly as it was and surfaces an error (the 500 path). -/
theorem C5_theorem (location : String) (g : GaugeState) (k : Counters) :
    metricsHandler location Upstream.transportError g k = ((g, k), true) := by
  simp [metricsHandler, fetchData]

/-- Claim C6: after a successful decode every numeric/boolean gauge holds
exactly the corresponding snapshot field (booleans via `boolToFloat`) under
the label tuple (location, accessoryID, deviceName, localIP, macAddress)
drawn from the fresh snapshot. -/
theorem C6_theorem (location : String) (st : Status) (g : GaugeState) :
    gaugesSetFrom location st (applyStatus location st g) :=
  applyStatus_gauges location st g

/-- Claim C7: after a successful decode the info gauge holds the constant 1
under the seven-field label tuple, and its state depends only on those seven
values: two snapshots agreeing on them (whatever their identity fields)
produce identical info-gauge maps. -/
theorem C7_theorem (location : String) (st : Status) (g : GaugeState) :
    (applyStatus location st g).deviceInfo (infoLabelsOf location st) = some 1
    ∧ ∀ st2 : Status,
        st2.firmwareVersion = st.firmwareVersion →
        st2.subnetMask = st.subnetMask →
        st2.gatewayIP = st.gatewayIP →
        st2.wifiSSID = st.wifiSSID →
        st2.garageLockState = st.garageLockState →
        st2.GDOSecurityType = st.GDOSecurityType →
        (applyStatus location st2 g).deviceInfo
          = (applyStatus location st g).deviceInfo := by
  constructor
  · rw [applyStatus_deviceInfo]
    exact GaugeVec.set_same g.deviceInfo (infoLabelsOf location st) 1
  · intro st2 h1 h2 h3 h4 h5 h6
    rw [applyStatus_deviceInfo, applyStatus_deviceInfo]
    have hl : infoLabelsOf location st2 = infoLabelsOf location st := by
      simp [infoLabelsOf, h1, h2, h3, h4, h5, h6]
    rw [hl]

/-- Claim C7 (witness): evaluated on two concrete snapshots differing only
in the device-identity fields. -/
theorem C7_witness :
    (applyStatus "home" sampleStatus initGauges).deviceInfo
        (infoLabelsOf "home" sampleStatus) = some 1
    ∧ (applyStatus "home" sampleStatusAlt initGauges).deviceInfo
        = (applyStatus "home" sampleStatus initGauges).deviceInfo :=
  ⟨( C7_theorem "home" sampleStatus initGauges).1,
   ( C7_theorem "home" sampleStatus initGauges).2 sampleStatusAlt
     rfl rfl rfl rfl rfl rfl⟩

/-- Claim C9: `fetchData` returns status code 0 with a distinct non-nil
error on each failure path (transport, body read, decode), and the genuine
status code with no error on success; consequently `metricsHandler` behaves
identically on a decode failure, a read failure and a transport failure. -/
theorem C9_theorem (location : String) (c cr : Int) (st : Status)
    (g : GaugeState) (k : Counters) :
    fetchData location Upstream.transportError g = (g, 0, some FetchErr.getErr)
    ∧ fetchData location (Upstream.readError c) g
        = (g, 0, some FetchErr.readErr)
    ∧ fetchData location (Upstream.decodeError c) g
        = (g, 0, some FetchErr.unmarshalErr)
    ∧ fetchData location (Upstream.ok c st) g
        = (applyStatus location st g, c, none)
    ∧ metricsHandler location (Upstream.decodeError c) g k
        = metricsHandler location Upstream.transportError g k
    ∧ metricsHandler location (Upstream.readError cr) g k
        = metricsHandler location Upstream.transportError g k :=
  ⟨rfl, rfl, rfl, rfl, rfl, rfl⟩

/-- Claim C10: when the door state is neither "Closed" nor "Open", the door
gauge map is not touched at all; in particular starting from the initial
registry no door-state series exists after the scrape. -/
theorem C10_theorem (location : String) (st : Status) (g : GaugeState)
    (h1 : st.garageDoorState ≠ "Closed") (h2 : st.garageDoorState ≠ "Open") :
    (applyStatus location st g).garageDoorState = g.garageDoorState
    ∧ ∀ l : IdLabels,
        (applyStatus location st initGauges).garageDoorState l = none := by
  constructor
  · rw [applyStatus_garageDoorState, if_neg h1, if_neg h2]
  · intro l
    rw [applyStatus_garageDoorState, if_neg h1, if_neg h2]
    rfl

/-- Updating a goroutine's program counter, read back at that goroutine. -/
lemma updatePc_self (p : Bool → Nat) (t : Bool) (v : Nat) :
    Function.update p t v t = v := by
  simp

/-- Updating a goroutine's program counter leaves the other's alone. -/
lemma updatePc_other (p : Bool → Nat) (t : Bool) (v : Nat) :
    Function.update p t v (!t) = p (!t) := by
  cases t <;> simp [Function.update_apply]

/-- Updating the other goroutine's program counter leaves this one's
alone. -/
lemma updatePc_notother (p : Bool → Nat) (t : Bool) (v : Nat) :
    Function.update p (!t) v t = p t := by
  cases t <;> simp [Function.update_apply]

/-- Running a cons of writes. -/
lemma runW_cons {G : Type} (f : G → G) (fs : List (G → G)) (g : G) :
    runW (f :: fs) g = runW fs (f g) := rfl

/-- Extending a prefix run by one write. -/
lemma runW_take_succ {G : Type} (fs : List (G → G)) (i : Nat)
    (hi : i < fs.length) (g : G) :
    runW (fs.take (i + 1)) g = fs.get ⟨i, hi⟩ (runW (fs.take i) g) := by
  induction fs generalizing i g with
  | nil => simp at hi
  | cons f fs ih =>
    cases i with
    | zero => simp [runW]
    | succ j =>
      have hj : j < fs.length := by simpa using hi
      simp only [List.take_succ_cons, runW_cons, List.get_cons_succ]
      exact ih j hj (f g)

/-- A full-length prefix run is the whole run. -/
lemma runW_take_all {G : Type} (fs : List (G → G)) (g : G) :
    runW (fs.take fs.length) g = runW fs g := by
  rw [List.take_length]

/-- Peeling one write off a suffix run. -/
lemma runW_drop_cons {G : Type} (fs : List (G → G)) (i : Nat)
    (hi : i < fs.length) (g : G) :
    runW (fs.drop i) g = runW (fs.drop (i + 1)) (fs.get ⟨i, hi⟩ g) := by
  induction fs generalizing i g with
  | nil => simp at hi
  | cons f fs ih =>
    cases i with
    | zero => simp [runW_cons]
    | succ j =>
      have hj : j < fs.length := by simpa using hi
      simp only [List.drop_succ_cons, List.get_cons_succ]
      exact ih j hj g

/-- The invariant is preserved by every interleaving step. -/
lemma CInv_step {G : Type} {w : Bool → List (G → G)} {g0 : G}
    {s s2 : CState G} (hstep : CStep w s s2) (hinv : CInv w g0 s) :
    CInv w g0 s2 := by
  cases hstep with
  | acquire t s hl hp =>
    rcases hinv with ⟨p0, p1, hl0, hm⟩ | ⟨u, hou, h1u, h2u, hlu, hm⟩ |
      ⟨u, hou, hdu, hlu, hm⟩ | ⟨u, hdu, h1u, h2u, hlu, hm⟩ |
      ⟨u, hd0, hd1, hlu, hm⟩
    · -- nobody had started: t is now alone in its critical section
      refine Or.inr (Or.inl ⟨t, ?_, ?_, ?_, rfl, ?_⟩)
      · simp only [updatePc_other]
        cases t
        · simpa using p1
        · simpa using p0
      · simp only [updatePc_self]
        omega
      · simp only [updatePc_self]
        omega
      · simp only [updatePc_self]
        simpa [runW] using hm
    · -- the mutex was held, so Lock() cannot return
      rw [hl] at hlu
      exact Option.noConfusion hlu
    · -- u finished and released; the newcomer must be the other goroutine
      have htu : t = !u := by
        cases t <;> cases u <;> simp_all
      subst htu
      refine Or.inr (Or.inr (Or.inr (Or.inl ⟨u, ?_, ?_, ?_, rfl, ?_⟩)))
      · simp only [updatePc_notother]
        exact hdu
      · simp only [updatePc_self]
        omega
      · simp only [updatePc_self]
        omega
      · simp only [updatePc_self]
        simpa [runW] using hm
    · rw [hl] at hlu
      exact Option.noConfusion hlu
    · -- both finished: no pc is 0
      exfalso
      cases t <;> cases u <;>
        simp only [Bool.not_false, Bool.not_true] at hd1 <;> omega
  | write t s i hi hp =>
    rcases hinv with ⟨p0, p1, hl0, hm⟩ | ⟨u, hou, h1u, h2u, hlu, hm⟩ |
      ⟨u, hou, hdu, hlu, hm⟩ | ⟨u, hdu, h1u, h2u, hlu, hm⟩ |
      ⟨u, hd0, hd1, hlu, hm⟩
    · -- nobody started: no goroutine sits at a write pc
      exfalso
      cases t <;> omega
    · -- the active goroutine performs its next write
      have htu : t = u := by
        cases t <;> cases u <;> simp_all
      subst htu
      refine Or.inr (Or.inl ⟨t, ?_, ?_, ?_, hlu, ?_⟩)
      · simp only [updatePc_other]
        exact hou
      · simp only [updatePc_self]
        omega
      · simp only [updatePc_self]
        omega
      · simp only [updatePc_self]
        have hpc : s.pc t - 1 = i := by omega
        have h21 : i + 2 - 1 = i + 1 := rfl
        rw [h21, runW_take_succ (w t) i hi, hm, hpc]
    · -- one finished, the other never started: nobody is at a write pc
      exfalso
      have hd : t = u ∨ t = !u := by cases t <;> cases u <;> simp
      rcases hd with rfl | rfl <;> omega
    · -- u finished, the other goroutine performs its next write
      have htu : t = !u := by
        cases t <;> cases u <;> simp_all <;> omega
      subst htu
      refine Or.inr (Or.inr (Or.inr (Or.inl ⟨u, ?_, ?_, ?_, hlu, ?_⟩)))
      · simp only [updatePc_notother]
        exact hdu
      · simp only [updatePc_self]
        omega
      · simp only [updatePc_self]
        omega
      · simp only [updatePc_self]
        have hpc : s.pc (!u) - 1 = i := by omega
        have h21 : i + 2 - 1 = i + 1 := rfl
        rw [h21, runW_take_succ (w (!u)) i hi, hm, hpc]
    · exfalso
      have hd : t = u ∨ t = !u := by cases t <;> cases u <;> simp
      rcases hd with rfl | rfl <;> omega
  | release t s hp =>
    rcases hinv with ⟨p0, p1, hl0, hm⟩ | ⟨u, hou, h1u, h2u, hlu, hm⟩ |
      ⟨u, hou, hdu, hlu, hm⟩ | ⟨u, hdu, h1u, h2u, hlu, hm⟩ |
      ⟨u, hd0, hd1, hlu, hm⟩
    · exfalso
      cases t <;> omega
    · -- the active goroutine unlocks: it has run all its writes
      have htu : t = u := by
        cases t <;> cases u <;> simp_all
      subst htu
      refine Or.inr (Or.inr (Or.inl ⟨t, ?_, ?_, rfl, ?_⟩))
      · simp only [updatePc_other]
        exact hou
      · simp only [updatePc_self]
      · have hpc : s.pc t - 1 = (w t).length := by omega
        rw [hm, hpc, runW_take_all]
    · exfalso
      have hd : t = u ∨ t = !u := by cases t <;> cases u <;> simp
      rcases hd with rfl | rfl <;> omega
    · -- the second goroutine unlocks: both scrapes have fully run
      have htu : t = !u := by
        cases t <;> cases u <;> simp_all
      subst htu
      refine Or.inr (Or.inr (Or.inr (Or.inr ⟨u, ?_, ?_, rfl, ?_⟩)))
      · simp only [updatePc_notother]
        exact hdu
      · simp only [updatePc_self]
      · have hpc : s.pc (!u) - 1 = (w (!u)).length := by omega
        rw [hm, hpc, runW_take_all]
    · exfalso
      have hd : t = u ∨ t = !u := by cases t <;> cases u <;> simp
      rcases hd with rfl | rfl <;> omega

/-- Every reachable state of the lock model satisfies the invariant. -/
lemma CInv_of_creach {G : Type} {w : Bool → List (G → G)} {g0 : G}
    {s : CState G} (h : creach w g0 s) : CInv w g0 s := by
  induction h with
  | refl => exact Or.inl ⟨rfl, rfl, rfl, rfl⟩
  | tail hr hstep ih => exact CInv_step hstep ih

/-- A goroutine at write pc i+1 can run its remaining writes up to the
unlock point, leaving the lock and the other goroutine untouched. -/
lemma creach_writes {G : Type} (w : Bool → List (G → G)) (t : Bool) :
    ∀ (k : Nat) (l : Option Bool) (p : Bool → Nat) (g : G) (i : Nat),
      (w t).length - i = k → i ≤ (w t).length → p t = i + 1 →
      Relation.ReflTransGen (CStep w) { lock := l, pc := p, mem := g }
        { lock := l, pc := Function.update p t ((w t).length + 1),
          mem := runW ((w t).drop i) g } := by
  intro k
  induction k with
  | zero =>
    intro l p g i hk hle hp
    have hi : i = (w t).length := by omega
    subst hi
    rw [List.drop_length]
    have hpp : Function.update p t ((w t).length + 1) = p := by
      funext x
      by_cases hx : x = t
      · subst hx
        rw [updatePc_self]
        exact hp.symm
      · rw [Function.update_noteq hx]
    rw [hpp]
    exact Relation.ReflTransGen.refl
  | succ k ih =>
    intro l p g i hk hle hp
    have hi : i < (w t).length := by omega
    refine Relation.ReflTransGen.head
      (CStep.write t { lock := l, pc := p, mem := g } i hi hp) ?_
    have h2 := ih l (Function.update p t (i + 2)) ((w t).get ⟨i, hi⟩ g)
      (i + 1) (by omega) (by omega) (by rw [updatePc_self])
    rw [Function.update_idem] at h2
    rw [runW_drop_cons (w t) i hi]
    exact h2

/-- A goroutine that has not started can run its whole scrape while the
mutex is free: Lock, all writes, Unlock. -/
lemma creach_thread {G : Type} (w : Bool → List (G → G)) (t : Bool)
    (p : Bool → Nat) (g : G) (hp : p t = 0) :
    Relation.ReflTransGen (CStep w) { lock := none, pc := p, mem := g }
      { lock := none, pc := Function.update p t ((w t).length + 2),
        mem := runW (w t) g } := by
  refine Relation.ReflTransGen.head
    (CStep.acquire t { lock := none, pc := p, mem := g } rfl hp) ?_
  have h2 := creach_writes w t ((w t).length) (some t)
    (Function.update p t 1) g 0 (by omega) (by omega) (by rw [updatePc_self])
  rw [Function.update_idem, List.drop_zero] at h2
  refine Relation.ReflTransGen.trans h2 ?_
  have hrel : CStep w
      { lock := some t, pc := Function.update p t ((w t).length + 1),
        mem := runW (w t) g }
      { lock := none,
        pc := Function.update (Function.update p t ((w t).length + 1)) t
          ((w t).length + 2),
        mem := runW (w t) g } :=
    CStep.release t _ (by simp)
  simp only [Function.update_idem] at hrel
  exact Relation.ReflTransGen.single hrel

/-- Claim C8: if two scrapes with (possibly different) snapshots run
concurrently under the interleaving semantics, any reachable state in which
both have completed holds a registry equal to one of the two serial
executions — never a field-wise mix of the two snapshots.  The single
global mutex serializes the whole fetch+decode+update sequence. -/
theorem C8_theorem (location : String) (st0 st1 : Status) (g0 : GaugeState)
    (s : CState GaugeState)
    (hreach : creach (scrapeSystem location st0 st1) g0 s)
    (hdone : cdone (scrapeSystem location st0 st1) s) :
    s.mem = applyStatus location st1 (applyStatus location st0 g0)
    ∨ s.mem = applyStatus location st0 (applyStatus location st1 g0) := by
  have hinv := CInv_of_creach hreach
  obtain ⟨hd0, hd1⟩ := hdone
  rcases hinv with ⟨p0, p1, hl0, hm⟩ | ⟨u, hou, h1u, h2u, hlu, hm⟩ |
    ⟨u, hou, hdu, hlu, hm⟩ | ⟨u, hdu, h1u, h2u, hlu, hm⟩ |
    ⟨u, hdu0, hdu1, hlu, hm⟩
  · exfalso
    omega
  · exfalso
    cases u <;> simp only [Bool.not_false, Bool.not_true] at hou <;> omega
  · exfalso
    cases u <;> simp only [Bool.not_false, Bool.not_true] at hou <;> omega
  · exfalso
    cases u <;> simp only [Bool.not_false, Bool.not_true] at h2u <;> omega
  · cases u
    · left
      simpa [scrapeSystem, applyStatus] using hm
    · right
      simpa [scrapeSystem, applyStatus] using hm

/-- Claim C8 (witness): the theorem applied to the concrete serialized
execution in which the scrape of `sampleStatus` completes first and the
scrape of `sampleStatusOpen` second, starting from the initial registry. -/
theorem C8_witness :
    (serialFinal "home" sampleStatus sampleStatusOpen initGauges).mem
      = applyStatus "home" sampleStatusOpen
          (applyStatus "home" sampleStatus initGauges)
    ∨ (serialFinal "home" sampleStatus sampleStatusOpen initGauges).mem
      = applyStatus "home" sampleStatus
          (applyStatus "home" sampleStatusOpen initGauges) := by
  apply C8_theorem "home" sampleStatus sampleStatusOpen initGauges
  · have h1 := creach_thread (scrapeSystem "home" sampleStatus sampleStatusOpen)
      false (fun _ => 0) initGauges rfl
    have h2 := creach_thread (scrapeSystem "home" sampleStatus sampleStatusOpen)
      true
      (Function.update (fun _ => 0) false
        ((scrapeSystem "home" sampleStatus sampleStatusOpen false).length + 2))
      (runW (scrapeSystem "home" sampleStatus sampleStatusOpen false) initGauges)
      (by simp [Function.update_apply])
    have hEq :
        ({ lock := none,
           pc := Function.update
             (Function.update (fun _ => 0) false
               ((scrapeSystem "home" sampleStatus sampleStatusOpen false).length + 2))
             true
             ((scrapeSystem "home" sampleStatus sampleStatusOpen true).length + 2),
           mem := runW (scrapeSystem "home" sampleStatus sampleStatusOpen true)
             (runW (scrapeSystem "home" sampleStatus sampleStatusOpen false)
               initGauges) } : CState GaugeState)
          = serialFinal "home" sampleStatus sampleStatusOpen initGauges := by
      unfold serialFinal
      congr 1
      funext x
      cases x <;> simp [Function.update_apply, scrapeSystem]
    exact Relation.ReflTransGen.trans h1 (hEq ▸ h2)
  · exact ⟨rfl, rfl⟩

/-- Claim C10 (witness): evaluated on a concrete snapshot reporting
"Opening". -/
theorem C10_witness :
    (applyStatus "home" sampleStatusOdd initGauges).garageDoorState
        = initGauges.garageDoorState
    ∧ (applyStatus "home" sampleStatusOdd initGauges).garageDoorState
        (idLabels "home" sampleStatusOdd) = none := by
  have h := C10_theorem "home" sampleStatusOdd initGauges (by decide) (by decide)
  exact ⟨h.1, h.2 (idLabels "home" sampleStatusOdd)⟩

end Ratgdo
